import Mathlib

/-!
Verification of the workflow task state machine and the replication ack
manager of this repository.

Part 1 embeds the workflow task state machine
(service/history/workflow/workflow_task_state_machine.go, concatenated into
src/service/worker/scanner/scanner.go): history events, the history builder,
the per-execution mutable state, and the transitions
AddWorkflowTaskScheduledEventAsHeartbeat, AddWorkflowTaskCompletedEvent,
AddWorkflowTaskFailedEvent and FailWorkflowTask.

Mutable-state helpers that the state machine calls but whose bodies are not
part of the sources here (IsTransientWorkflowTask, HasBufferedEvents,
ClearStickyness, TaskQueue, GetLastWriteVersion, UpdateWorkflowStateStatus,
the history builder) are modelled from the specification, as documented on
each definition.

Machine integers (int64, int32) are modelled as Int; wall-clock instants and
durations are modelled as Int (the zero time is 0); proto timestamp pointers
that are only ever nil or a value are collapsed to Int with 0 for unset,
which no verified property observes.
-/

namespace Temporal

/-- Sentinel for an unset event id (common.EmptyEventID). Modelled from the
spec: EMPTY_EVENT_ID means no pending task / not started. -/
def EmptyEventID : Int := 0

/-- Sentinel for an unset failover version (common.EmptyVersion). Modelled
from the spec: EMPTY_VERSION means unset. -/
def EmptyVersion : Int := -24

/-- The request id recorded while no poll request started the task. Modelled
from the spec: empty-UUID when unstarted. -/
def emptyUUID : String := ""

/-- workflowTaskRetryBackoffMinAttempts from the source. -/
def workflowTaskRetryBackoffMinAttempts : Int := 3

/-- workflowTaskRetryInitialInterval (5 seconds) from the source, in
seconds. -/
def workflowTaskRetryInitialInterval : Int := 5

/-- A task queue is either normal or sticky (spec section 3). -/
inductive TaskQueueKind where
  | normal
  | sticky
deriving DecidableEq, Repr

/-- Task queue binding: name and kind. -/
structure TaskQueue where
  name : String
  kind : TaskQueueKind
deriving DecidableEq, Repr

/-- Workflow task failed causes that the state machine inspects
(enumspb.WorkflowTaskFailedCause); causes it does not inspect are collapsed
into one constructor. -/
inductive WorkflowTaskFailedCause where
  | resetWorkflow
  | failoverCloseCommand
  | otherCause
deriving DecidableEq, Repr

/-- Timeout types used by the state machine (enumspb.TimeoutType). -/
inductive TimeoutType where
  | scheduleToStart
  | startToClose
deriving DecidableEq, Repr

/-- Payload of a history event, restricted to the events the workflow task
state machine emits; buffered events of other types are abstracted by a
numeric payload. -/
inductive HistoryEventData where
  | wtScheduled (taskQueue : TaskQueue) (startToCloseTimeout : Int) (attempt : Int)
  | wtStarted (scheduledEventId : Int) (requestId : String) (identity : String)
  | wtCompleted (scheduledEventId : Int) (startedEventId : Int) (identity : String)
      (binaryChecksum : String)
  | wtFailed (scheduledEventId : Int) (startedEventId : Int) (cause : WorkflowTaskFailedCause)
  | wtTimedOut (scheduledEventId : Int) (startedEventId : Int) (timeoutType : TimeoutType)
  | bufferedOther (payload : Nat)
deriving DecidableEq, Repr

/-- A durable history event: id, recorded event time and payload. -/
structure HistoryEvent where
  eventId : Int
  eventTime : Int
  data : HistoryEventData
deriving DecidableEq, Repr

/-- History builder (spec component C1): allocates monotonically increasing
event ids, holds the events appended during the current transaction and the
buffered events whose ids are not yet assigned. Modelled from the spec; the
builder itself is not part of the sources here. -/
structure HistoryBuilder where
  nextEventId : Int
  events : List HistoryEvent
  buffered : List (Int × Nat)
deriving DecidableEq, Repr

/-- Append one durable event, consuming the next event id. -/
def HistoryBuilder.add (hb : HistoryBuilder) (time : Int) (d : HistoryEventData) :
    HistoryEvent × HistoryBuilder :=
  let ev : HistoryEvent := ⟨hb.nextEventId, time, d⟩
  (ev, { hb with nextEventId := hb.nextEventId + 1, events := hb.events ++ [ev] })

/-- Assign consecutive event ids to buffered events, starting at n. -/
def emitBuffered (n : Int) : List (Int × Nat) → List HistoryEvent
  | [] => []
  | (t, p) :: rest => ⟨n, t, .bufferedOther p⟩ :: emitBuffered (n + 1) rest

/-- FlushBufferToCurrentBatch: buffered events become durable events with
consecutive ids. Modelled from the spec (buffers events between task batches,
flushes on batch boundaries). -/
def HistoryBuilder.flushBufferToCurrentBatch (hb : HistoryBuilder) : HistoryBuilder :=
  { nextEventId := hb.nextEventId + hb.buffered.length,
    events := hb.events ++ emitBuffered hb.nextEventId hb.buffered,
    buffered := [] }

/-- Workflow execution states inspected by the state machine. -/
inductive WfState where
  | created
  | running
  | completed
  | terminated
  | zombie
deriving DecidableEq, Repr

/-- WorkflowTaskInfo from the source: the instance of one logical workflow
task. Times are Int instants with 0 for the zero time / nil pointer. -/
structure WorkflowTaskInfo where
  version : Int
  scheduledEventId : Int
  startedEventId : Int
  requestId : String
  workflowTaskTimeout : Int
  taskQueue : Option TaskQueue
  attempt : Int
  scheduledTime : Int
  startedTime : Int
  originalScheduledTime : Int
deriving DecidableEq, Repr

/-- The slice of MutableStateImpl that the workflow task state machine reads
and writes: the executionInfo workflow-task fields, the task-queue binding,
versions, workflow state, the history builder, the shard config value
WorkflowTaskRetryMaxInterval and the current wall clock (timeSource.Now). -/
structure MutableState where
  wtVersion : Int
  wtScheduledEventId : Int
  wtStartedEventId : Int
  wtRequestId : String
  wtTimeout : Int
  wtAttempt : Int
  wtStartedTime : Int
  wtScheduledTime : Int
  wtOriginalScheduledTime : Int
  lastWorkflowTaskStartedEventId : Int
  defaultWorkflowTaskTimeout : Int
  normalTaskQueueName : String
  stickyTaskQueueName : String
  currentVersion : Int
  lastWriteVersion : Int
  workflowState : WfState
  wtRetryMaxInterval : Int
  hb : HistoryBuilder
  now : Int
deriving DecidableEq, Repr

/-- TaskQueue() of mutable state. Modelled from the spec: the sticky binding
when one is set, the normal queue otherwise. -/
def MutableState.taskQueue (st : MutableState) : TaskQueue :=
  if st.stickyTaskQueueName ≠ "" then ⟨st.stickyTaskQueueName, .sticky⟩
  else ⟨st.normalTaskQueueName, .normal⟩

/-- IsStickyTaskQueueEnabled. Modelled from the spec: a sticky binding is
set. -/
def isStickyTaskQueueEnabled (st : MutableState) : Bool :=
  st.stickyTaskQueueName ≠ ""

/-- ClearStickyness. Modelled from the spec: clears the sticky binding. -/
def clearStickyness (st : MutableState) : MutableState :=
  { st with stickyTaskQueueName := "" }

/-- IsTransientWorkflowTask. Modelled from the spec (section 3): a task is
transient iff attempt is greater than RETRY_BACKOFF_MIN_ATTEMPTS (= 3). -/
def isTransientWorkflowTask (st : MutableState) : Bool :=
  workflowTaskRetryBackoffMinAttempts < st.wtAttempt

/-- HasBufferedEvents. Modelled from the spec: unflushed buffered events
exist. -/
def hasBufferedEvents (st : MutableState) : Bool :=
  !st.hb.buffered.isEmpty

/-- HasPendingWorkflowTask from the source: a scheduled event id is set. -/
def hasPendingWorkflowTask (st : MutableState) : Bool :=
  st.wtScheduledEventId ≠ EmptyEventID

/-- GetNextEventID. Modelled from the spec: the next event id the history
builder will allocate. -/
def MutableState.getNextEventID (st : MutableState) : Int :=
  st.hb.nextEventId

/-- The invalid-history-action internal server error returned on any
state-check violation. -/
def invalidHistoryActionMsg : String := "invalid history builder state"

/-- UpdateWorkflowTask from the source: copies the workflow task fields into
executionInfo. It does not update the task queue binding. -/
def updateWorkflowTask (st : MutableState) (wt : WorkflowTaskInfo) : MutableState :=
  { st with
    wtVersion := wt.version,
    wtScheduledEventId := wt.scheduledEventId,
    wtStartedEventId := wt.startedEventId,
    wtRequestId := wt.requestId,
    wtTimeout := wt.workflowTaskTimeout,
    wtAttempt := wt.attempt,
    wtStartedTime := wt.startedTime,
    wtScheduledTime := wt.scheduledTime,
    wtOriginalScheduledTime := wt.originalScheduledTime }

/-- getWorkflowTaskInfo from the source: the current workflow task as a
WorkflowTaskInfo value. -/
def MutableState.currentWorkflowTaskInfo (st : MutableState) : WorkflowTaskInfo :=
  { version := st.wtVersion,
    scheduledEventId := st.wtScheduledEventId,
    startedEventId := st.wtStartedEventId,
    requestId := st.wtRequestId,
    workflowTaskTimeout := st.wtTimeout,
    taskQueue := some st.taskQueue,
    attempt := st.wtAttempt,
    scheduledTime := st.wtScheduledTime,
    startedTime := st.wtStartedTime,
    originalScheduledTime := st.wtOriginalScheduledTime }

/-- GetWorkflowTaskInfo from the source: the current task when the given
scheduled event id matches, nothing otherwise. -/
def getWorkflowTaskInfo (st : MutableState) (scheduledEventId : Int) :
    Option WorkflowTaskInfo :=
  if scheduledEventId = st.wtScheduledEventId then some st.currentWorkflowTaskInfo
  else none

/-- ComputeNextDelay of the exponential retry policy with coefficient 2,
clamped at the maximum interval. Modelled from the spec: exponential policy
with initial 5s and ceiling workflow_task_retry_max_interval, no
expiration. -/
def computeNextDelay (initialInterval maxInterval numAttempts : Int) : Int :=
  let d := initialInterval * 2 ^ (numAttempts - 1).toNat
  if maxInterval < d then maxInterval else d

/-- getStartToCloseTimeout from the source: the default timeout, plus the
retry backoff once attempt exceeds workflowTaskRetryBackoffMinAttempts. -/
def getStartToCloseTimeout (st : MutableState) (defaultTimeout attempt : Int) : Int :=
  if attempt ≤ workflowTaskRetryBackoffMinAttempts then defaultTimeout
  else defaultTimeout +
    computeNextDelay workflowTaskRetryInitialInterval st.wtRetryMaxInterval
      (attempt - workflowTaskRetryBackoffMinAttempts)

/-- ReplicateWorkflowTaskScheduledEvent from the source: move the workflow to
RUNNING unless it is a zombie, build the WorkflowTaskInfo for the scheduled
task and store it. UpdateWorkflowStateStatus is modelled from the spec
(workflow state is moved to RUNNING unless currently ZOMBIE). -/
def replicateWorkflowTaskScheduledEvent (st : MutableState) (version scheduledEventId : Int)
    (taskQueue : TaskQueue) (startToCloseTimeout attempt scheduledTime
    originalScheduledTimestamp : Int) : WorkflowTaskInfo × MutableState :=
  let st1 := if st.workflowState = .zombie then st else { st with workflowState := .running }
  let wt : WorkflowTaskInfo :=
    { version := version,
      scheduledEventId := scheduledEventId,
      startedEventId := EmptyEventID,
      requestId := emptyUUID,
      workflowTaskTimeout := startToCloseTimeout,
      taskQueue := some taskQueue,
      attempt := attempt,
      scheduledTime := scheduledTime,
      startedTime := 0,
      originalScheduledTime := originalScheduledTimestamp }
  (wt, updateWorkflowTask st1 wt)

/-- The buffered-events paragraph of AddWorkflowTaskScheduledEventAsHeartbeat:
when buffered events exist the attempt is reset to 1, the buffer is flushed
and emission is forced; otherwise emission is decided by the task not being
transient. Returns the adjusted state and the emission decision. -/
def heartbeatBufferAdjust (st : MutableState) : MutableState × Bool :=
  if hasBufferedEvents st then
    ({ st with wtAttempt := 1, hb := st.hb.flushBufferToCurrentBatch }, true)
  else (st, !isTransientWorkflowTask st)

/-- The failover paragraph of AddWorkflowTaskScheduledEventAsHeartbeat: when
emission was not already decided and the current version differs from the
last write version, the attempt is reset to 1 and emission is forced. -/
def heartbeatFailoverAdjust (p : MutableState × Bool) : MutableState × Bool :=
  if p.2 then p
  else if p.1.currentVersion ≠ p.1.lastWriteVersion then ({ p.1 with wtAttempt := 1 }, true)
  else (p.1, false)

/-- The tail of AddWorkflowTaskScheduledEventAsHeartbeat: either emit the
durable WorkflowTaskScheduledEvent or reserve the next event id, then apply
ReplicateWorkflowTaskScheduledEvent. -/
def heartbeatFinish (st2 : MutableState) (create : Bool)
    (originalScheduledTimestamp : Int) : WorkflowTaskInfo × MutableState :=
  let scheduleTime := st2.now
  let attempt := st2.wtAttempt
  let taskQueue := st2.taskQueue
  let startToCloseTimeout := getStartToCloseTimeout st2 st2.defaultWorkflowTaskTimeout attempt
  let emitted :=
    if create then
      let p := st2.hb.add scheduleTime (.wtScheduled taskQueue startToCloseTimeout attempt)
      ((p.1).eventId, { st2 with hb := p.2 })
    else (st2.getNextEventID, st2)
  replicateWorkflowTaskScheduledEvent emitted.2 (emitted.2).currentVersion emitted.1
    taskQueue startToCloseTimeout attempt scheduleTime originalScheduledTimestamp

/-- AddWorkflowTaskScheduledEventAsHeartbeat from the source. Fails when a
workflow task is pending. Emits the durable WorkflowTaskScheduledEvent
unless the task is transient; buffered events force a flush, an attempt
reset to 1 and emission; a failover (current version differing from the last
write version) during a transient task also resets attempt to 1 and forces
emission. When no event is emitted the scheduled event id is reserved as the
next event id. Task generation (taskGenerator) is external I/O and is not
modelled. -/
def addWorkflowTaskScheduledEventAsHeartbeat (st : MutableState)
    (_bypassTaskGeneration : Bool) (originalScheduledTimestamp : Int) :
    Except String (WorkflowTaskInfo × MutableState) :=
  if hasPendingWorkflowTask st then .error invalidHistoryActionMsg
  else
    let adj := heartbeatFailoverAdjust (heartbeatBufferAdjust st)
    .ok (heartbeatFinish adj.1 adj.2 originalScheduledTimestamp)

/-- DeleteWorkflowTask from the source: clears the pending-task fields,
resets attempt to 1 and preserves only the original scheduled time. -/
def deleteWorkflowTask (st : MutableState) : MutableState :=
  updateWorkflowTask st
    { version := EmptyVersion,
      scheduledEventId := EmptyEventID,
      startedEventId := EmptyEventID,
      requestId := emptyUUID,
      workflowTaskTimeout := 0,
      taskQueue := none,
      attempt := 1,
      scheduledTime := 0,
      startedTime := 0,
      originalScheduledTime := st.wtOriginalScheduledTime }

/-- GetStartedEventId of a WorkflowTaskCompleted event's attributes; the
proto getter yields 0 on any other event type. -/
def completedAttrStartedEventId : HistoryEventData → Int
  | .wtCompleted _ startedEventId _ _ => startedEventId
  | _ => 0

/-- afterAddWorkflowTaskCompletedEvent from the source: records the started
event id carried by the completed event. addBinaryCheckSumIfNotExists only
maintains reset points, which no verified property observes, and is not
modelled. -/
def afterAddWorkflowTaskCompletedEvent (st : MutableState) (ev : HistoryEvent) :
    MutableState :=
  { st with lastWorkflowTaskStartedEventId := completedAttrStartedEventId ev.data }

/-- The retroactive-emission paragraph of AddWorkflowTaskCompletedEvent: for
a transient task, emit the corresponding WorkflowTaskScheduled and
WorkflowTaskStarted events with the recorded times; returns the new started
event id and the state with both events appended. -/
def completedTransientEvents (st1 : MutableState) (wt : WorkflowTaskInfo)
    (identity : String) : Int × MutableState :=
  let p := st1.hb.add wt.scheduledTime
    (.wtScheduled st1.taskQueue wt.workflowTaskTimeout wt.attempt)
  let q := p.2.add wt.startedTime (.wtStarted (p.1).eventId wt.requestId identity)
  ((q.1).eventId, { st1 with hb := q.2 })

/-- AddWorkflowTaskCompletedEvent from the source. Fails unless the given
scheduled and started event ids match the pending task. Deletes the workflow
task, retroactively emits WorkflowTaskScheduled and WorkflowTaskStarted with
the recorded times when the task was transient, then emits
WorkflowTaskCompleted and records its started event id. -/
def addWorkflowTaskCompletedEvent (st : MutableState) (scheduledEventId startedEventId : Int)
    (identity binaryChecksum : String) : Except String (HistoryEvent × MutableState) :=
  match getWorkflowTaskInfo st scheduledEventId with
  | none => .error invalidHistoryActionMsg
  | some wt =>
    if wt.startedEventId ≠ startedEventId then .error invalidHistoryActionMsg
    else
      let eventsCreated := !isTransientWorkflowTask st
      let st1 := deleteWorkflowTask st
      let p :=
        if eventsCreated then (startedEventId, st1)
        else completedTransientEvents st1 wt identity
      let q := (p.2).hb.add (p.2).now
        (.wtCompleted scheduledEventId p.1 identity binaryChecksum)
      let st3 := afterAddWorkflowTaskCompletedEvent { p.2 with hb := q.2 } q.1
      .ok (q.1, st3)

/-- FailWorkflowTask from the source: attempts are incremented only when the
task was failing on a non-sticky queue; stickiness is cleared; the pending
task fields are reset, with attempt set to the incremented value or to 1. -/
def failWorkflowTask (st : MutableState) (incrementAttempt : Bool) : MutableState :=
  let inc := incrementAttempt && !isStickyTaskQueueEnabled st
  let st1 := clearStickyness st
  let base : WorkflowTaskInfo :=
    { version := EmptyVersion,
      scheduledEventId := EmptyEventID,
      startedEventId := EmptyEventID,
      requestId := emptyUUID,
      workflowTaskTimeout := 0,
      taskQueue := none,
      attempt := 1,
      scheduledTime := 0,
      startedTime := 0,
      originalScheduledTime := 0 }
  let info :=
    if inc then { base with attempt := st.wtAttempt + 1, scheduledTime := st.now }
    else base
  updateWorkflowTask st1 info

/-- ReplicateWorkflowTaskFailedEvent from the source: FailWorkflowTask with
increment. -/
def replicateWorkflowTaskFailedEvent (st : MutableState) : MutableState :=
  failWorkflowTask st true

/-- The emission paragraph of AddWorkflowTaskFailedEvent: the
WorkflowTaskFailed event is emitted only when the task is not transient. -/
def failedEventEmit (st : MutableState) (scheduledEventId startedEventId : Int)
    (cause : WorkflowTaskFailedCause) : Option HistoryEvent × MutableState :=
  if !isTransientWorkflowTask st then
    let p := st.hb.add st.now (.wtFailed scheduledEventId startedEventId cause)
    (some p.1, { st with hb := p.2 })
  else (none, st)

/-- AddWorkflowTaskFailedEvent from the source. Fails unless the given ids
match the pending task. Emits WorkflowTaskFailed only when the task is not
transient, applies FailWorkflowTask with increment, and resets attempt to 1
for the reset-workflow and failover-close-command causes. -/
def addWorkflowTaskFailedEvent (st : MutableState) (scheduledEventId startedEventId : Int)
    (cause : WorkflowTaskFailedCause) :
    Except String (Option HistoryEvent × MutableState) :=
  match getWorkflowTaskInfo st scheduledEventId with
  | none => .error invalidHistoryActionMsg
  | some wt =>
    if wt.startedEventId ≠ startedEventId then .error invalidHistoryActionMsg
    else
      let em := failedEventEmit st scheduledEventId startedEventId cause
      let st2 := replicateWorkflowTaskFailedEvent em.2
      let st3 :=
        if cause = .resetWorkflow ∨ cause = .failoverCloseCommand then
          { st2 with wtAttempt := 1 }
        else st2
      .ok (em.1, st3)

/-!
Part 2 models the replication ack manager (ackMgrImpl). Its implementation
file is not among the sources here; only its test suite is
(src/unnamed/part_001). The operations NotifyNewTasks, GetMaxTaskInfo,
taskIDsRange, getTasks and generateSyncActivityTask are therefore modelled
from the specification (section 4.2), with the behaviors the in-repo tests
pin down noted on each definition.
-/

/-- A replication queue item as seen by NotifyNewTasks: its shard-monotonic
task id and its visibility timestamp. -/
structure ReplicationTaskStub where
  taskID : Int
  visibilityTimestamp : Int
deriving DecidableEq, Repr

/-- Combine a cached maximum with a newly observed one: adopt the new value
when the cache is uninitialised, otherwise take the larger. -/
def combineMax : Option Int → Option Int → Option Int
  | none, o => o
  | some c, none => some c
  | some c, some v => some (max c v)

/-- Maximum of a list of Int, none for the empty list. -/
def listMaxInt : List Int → Option Int
  | [] => none
  | x :: xs => combineMax (some x) (listMaxInt xs)

/-- The mutable state of the ack manager that the verified operations touch:
the cached max task id, the cached max visibility timestamp, and the sanity
check time (0 is the zero time, meaning never set). -/
structure AckMgr where
  maxTaskID : Option Int
  maxVisibilityTimestamp : Option Int
  sanityCheckTime : Int
deriving DecidableEq, Repr

/-- The ack manager before any notification or range computation. -/
def ackMgrInit : AckMgr := ⟨none, none, 0⟩

/-- NotifyNewTasks. Modelled from the spec: update the cached max_task_id to
max(current, max(tasks.id)), adopting the first observed maximum when
uninitialised; the maximum visibility timestamp is maintained the same way
(GetMaxTaskInfo returns the largest visibility timestamp seen across all
notifications). A call with no tasks changes nothing. -/
def notifyNewTasks (m : AckMgr) (ts : List ReplicationTaskStub) : AckMgr :=
  if ts.isEmpty then m
  else
    { m with
      maxTaskID := combineMax m.maxTaskID (listMaxInt (ts.map (·.taskID))),
      maxVisibilityTimestamp :=
        combineMax m.maxVisibilityTimestamp (listMaxInt (ts.map (·.visibilityTimestamp))) }

/-- GetMaxTaskInfo. Modelled from the spec: the highest task id observed via
NotifyNewTasks and the largest visibility timestamp seen across all
notifications, as independent extrema. -/
def getMaxTaskInfo (m : AckMgr) : Int × Int :=
  (m.maxTaskID.getD 0, m.maxVisibilityTimestamp.getD 0)

/-- taskIDsRange. Modelled from the spec (section 4.2 range selection):
min is the caller's inclusive min ack; the candidate max is the shard's
exclusive high read watermark minus one; when the sanity check time is stale
(zero or before now) it is refreshed to now plus the refresh interval and the
candidate is used unclamped; when it is fresh, the candidate is clamped by
the cached max task id when one is known and the sanity check time is left
unchanged (the in-repo tests TestTaskIDRange_Initialized_NoHighestReplicationTaskID
and TestTaskIDRange_Initialized_UseHighestTransferTaskID pin that the refresh
depends only on staleness and that a stale call never clamps); the chosen
max is persisted back into the cache in every case. -/
def taskIDsRange (m : AckMgr) (now refreshInterval watermark lastReadTaskID : Int) :
    Int × Int × AckMgr :=
  let minTaskID := lastReadTaskID
  let maxTaskID := watermark - 1
  if m.sanityCheckTime = 0 ∨ m.sanityCheckTime < now then
    (minTaskID, maxTaskID,
      { m with sanityCheckTime := now + refreshInterval, maxTaskID := some maxTaskID })
  else
    let maxTaskID2 :=
      match m.maxTaskID with
      | some c => if c < maxTaskID then c else maxTaskID
      | none => maxTaskID
    (minTaskID, maxTaskID2, { m with maxTaskID := some maxTaskID2 })

/-- Outcome of hydrating one replication queue task against live mutable
state: a hydrated payload, nothing (missing workflow or activity, the task
is ack'd), or a transient persistence failure. -/
inductive HydrationOutcome where
  | hydrated (payload : Int)
  | dropped
  | failure
deriving DecidableEq, Repr

/-- A replication queue task as read from persistence: its id and its
namespace. -/
structure QueueTask where
  taskID : Int
  namespaceID : String
deriving DecidableEq, Repr

/-- A hydrated outbound replication task: the source task id and its
payload. -/
structure OutTask where
  sourceTaskID : Int
  payload : Int
deriving DecidableEq, Repr

/-- What getTasks hands back to its caller: the hydrated tasks, the last
retrieved id the caller may ack up to, and whether an error was
propagated. -/
structure GetTasksResult where
  tasks : List OutTask
  lastRetrievedID : Int
  failed : Bool
deriving DecidableEq, Repr

/-- The page loop of getTasks. Modelled from the spec (section 4.2 paginated
read, hydration and error policy): a task whose namespace is not replicated
to the poll cluster is dropped but still advances the cursor; a dropped
(not-found) hydration advances the cursor; a persistence failure before
anything was hydrated propagates the error with an empty result and cursor
0; a persistence failure after a non-empty hydrated prefix returns that
prefix with the cursor at the prefix's last task id. -/
def getTasksLoop (replicated : String → Bool) (hydrate : QueueTask → HydrationOutcome) :
    List QueueTask → List OutTask → Int → GetTasksResult
  | [], acc, last => ⟨acc, last, false⟩
  | t :: rest, acc, _last =>
    if replicated t.namespaceID then
      match hydrate t with
      | .hydrated p => getTasksLoop replicated hydrate rest (acc ++ [⟨t.taskID, p⟩]) t.taskID
      | .dropped => getTasksLoop replicated hydrate rest acc t.taskID
      | .failure =>
        match acc.getLast? with
        | none => ⟨[], 0, true⟩
        | some lastOut => ⟨acc, lastOut.sourceTaskID, false⟩
    else getTasksLoop replicated hydrate rest acc t.taskID

/-- getTasks over one page of replication tasks for the range ending at
maxTaskID. Modelled from the spec; the cursor starts at the requested max,
so that a page with no tasks acks the whole empty range, as pinned by
TestGetTasks_NoTasksInDB in src/unnamed/part_001. -/
def getTasks (replicated : String → Bool) (hydrate : QueueTask → HydrationOutcome)
    (page : List QueueTask) (maxTaskID : Int) : GetTasksResult :=
  getTasksLoop replicated hydrate page [] maxTaskID

/-- The hydrated outputs of an error-free run over a list of queue tasks:
tasks of non-replicated namespaces and dropped hydrations contribute
nothing. -/
def hydratedOuts (replicated : String → Bool) (hydrate : QueueTask → HydrationOutcome) :
    List QueueTask → List OutTask
  | [] => []
  | t :: rest =>
    (if replicated t.namespaceID then
      match hydrate t with
      | .hydrated p => [⟨t.taskID, p⟩]
      | _ => ([] : List OutTask)
    else []) ++ hydratedOuts replicated hydrate rest

/-- The task id of the last element of a list of queue tasks, with a default
for the empty list. -/
def lastTaskIdOf (d : Int) : List QueueTask → Int
  | [] => d
  | t :: rest => lastTaskIdOf t.taskID rest

/-- ActivityInfo fields that generateSyncActivityTask copies into the
replication payload. Optional times model nilable proto timestamps. -/
structure ActivityInfo where
  version : Int
  scheduledEventId : Int
  scheduledTime : Option Int
  startedEventId : Int
  startedTime : Option Int
  lastHeartbeatUpdateTime : Option Int
  lastHeartbeatDetails : String
  attempt : Int
  retryLastFailure : String
  retryLastWorkerIdentity : String
deriving DecidableEq, Repr

/-- One item of a version history. -/
structure VersionHistoryItem where
  eventId : Int
  version : Int
deriving DecidableEq, Repr

/-- A version history: branch token and items. -/
structure VersionHistory where
  branchToken : List Nat
  items : List VersionHistoryItem
deriving DecidableEq, Repr

/-- The slice of live mutable state that hydrating a SyncActivity task
reads: whether the execution is still running, the activity table keyed by
scheduled event id, and the current version history. -/
structure WorkflowSnapshot where
  isRunning : Bool
  activities : List (Int × ActivityInfo)
  currentVersionHistory : VersionHistory
deriving DecidableEq, Repr

/-- GetActivityInfo: look up the activity by its scheduled event id. -/
def getActivityInfo (ws : WorkflowSnapshot) (scheduledEventId : Int) : Option ActivityInfo :=
  (ws.activities.find? (fun p => p.1 = scheduledEventId)).map (·.2)

/-- A SyncActivity replication queue task. -/
structure SyncActivityTask where
  namespaceID : String
  workflowID : String
  runID : String
  visibilityTimestamp : Int
  taskID : Int
  version : Int
  scheduledEventID : Int
deriving DecidableEq, Repr

/-- SyncActivityTaskAttributes of the outbound replication payload. -/
structure SyncActivityTaskAttributes where
  namespaceId : String
  workflowId : String
  runId : String
  version : Int
  scheduledEventId : Int
  scheduledTime : Option Int
  startedEventId : Int
  startedTime : Option Int
  lastHeartbeatTime : Option Int
  details : String
  attempt : Int
  lastFailure : String
  lastWorkerIdentity : String
  versionHistory : VersionHistory
deriving DecidableEq, Repr

/-- The outbound replication task produced for a SyncActivity queue task. -/
structure SyncActivityReplicationTask where
  sourceTaskId : Int
  attributes : SyncActivityTaskAttributes
  visibilityTime : Int
deriving DecidableEq, Repr

/-- generateSyncActivityTask. Modelled from the spec (sections 4.2 and 7):
the workflow lookup outcome is passed in as none for a NotFound (which is
swallowed, the task is ack'd) or the live snapshot; when the execution is no
longer running or the activity no longer exists nothing is emitted;
otherwise the payload carries the activity's version, schedule, start and
heartbeat times, attempt, last failure, last worker identity and the current
version history. -/
def generateSyncActivityTask (lookup : Option WorkflowSnapshot) (task : SyncActivityTask) :
    Option SyncActivityReplicationTask :=
  match lookup with
  | none => none
  | some ws =>
    if !ws.isRunning then none
    else
      match getActivityInfo ws task.scheduledEventID with
      | none => none
      | some ai =>
        some
          { sourceTaskId := task.taskID,
            attributes :=
              { namespaceId := task.namespaceID,
                workflowId := task.workflowID,
                runId := task.runID,
                version := ai.version,
                scheduledEventId := ai.scheduledEventId,
                scheduledTime := ai.scheduledTime,
                startedEventId := ai.startedEventId,
                startedTime := ai.startedTime,
                lastHeartbeatTime := ai.lastHeartbeatUpdateTime,
                details := ai.lastHeartbeatDetails,
                attempt := ai.attempt,
                lastFailure := ai.retryLastFailure,
                lastWorkerIdentity := ai.retryLastWorkerIdentity,
                versionHistory := ws.currentVersionHistory },
            visibilityTime := task.visibilityTimestamp }

/-!
Part 3 models the Cassandra storage driver TLS configuration validation
(NewCassandraCluster). Its implementation is not among the sources here;
only its test suite is (src/unnamed/part_000). The validation is modelled
from the specification (section 6 storage driver config), with the error
strings and base64 error positions pinned by the tests. PEM parsing and
X.509 key pair assembly are abstracted by oracle predicates; no verified
property depends on them.
-/

/-- TLS section of the Cassandra connection config: inline base64 data and
file path for each of CA, client cert and client key. -/
structure TLSConfig where
  enabled : Bool
  caData : String
  caFile : String
  certData : String
  certFile : String
  keyData : String
  keyFile : String
deriving DecidableEq, Repr

/-- Errors NewCassandraCluster can fail with during TLS setup. -/
inductive CassandraClusterError where
  | cannotSpecifyBoth (material : String)
  | base64CorruptInput (pos : Nat)
  | badCAPEM
  | x509KeyPair
deriving DecidableEq, Repr

/-- Characters of the standard base64 alphabet. -/
def isBase64Char (c : Char) : Bool :=
  c.isAlphanum || c = '+' || c = '/'

/-- Index of the first corrupt character, scanning from index i. -/
def base64FirstCorruptAux : List Char → Nat → Option Nat
  | [], _ => none
  | c :: rest, i =>
    if isBase64Char c || c = '=' || c = '\r' || c = '\n' then
      base64FirstCorruptAux rest (i + 1)
    else some i

/-- The base64 decoder's corrupt-input position. Modelled from the spec:
decoding surfaces the decoder's position-bearing error; the position is the
index of the first character outside the standard alphabet, padding and
newlines, which matches the CorruptInputError index of the Go decoder for
every input whose first defect is an illegal character. -/
def base64FirstCorrupt (s : String) : Option Nat :=
  base64FirstCorruptAux s.data 0

/-- NewCassandraCluster TLS validation. Modelled from the spec (section 6):
for each material, giving both inline data and a file path fails with the
corresponding cannot-specify-both error; inline data that is not valid
base64 fails with the decoder's position-bearing error; a decoded CA that
the PEM oracle rejects fails with the bad-CA-PEM error; a provided client
cert whose pairing with the key the X.509 oracle rejects fails with the key
pair error. A missing or disabled TLS section validates trivially. -/
def newCassandraCluster (pemOk : String → Bool) (keyPairOk : String → String → Bool)
    (tls : Option TLSConfig) : Option CassandraClusterError :=
  match tls with
  | none => none
  | some t =>
    if !t.enabled then none
    else if t.certData ≠ "" ∧ t.certFile ≠ "" then some (.cannotSpecifyBoth "cert")
    else if t.keyData ≠ "" ∧ t.keyFile ≠ "" then some (.cannotSpecifyBoth "key")
    else if t.caData ≠ "" ∧ t.caFile ≠ "" then some (.cannotSpecifyBoth "ca")
    else
      match base64FirstCorrupt t.caData with
      | some p => some (.base64CorruptInput p)
      | none =>
        if t.caData ≠ "" ∧ !pemOk t.caData then some .badCAPEM
        else
          match base64FirstCorrupt t.certData with
          | some p => some (.base64CorruptInput p)
          | none =>
            match base64FirstCorrupt t.keyData with
            | some p => some (.base64CorruptInput p)
            | none =>
              if (t.certData ≠ "" ∨ t.certFile ≠ "") ∧ !keyPairOk t.certData t.keyData then
                some .x509KeyPair
              else none

/-!
Helper lemmas shared by the claims about the replication ack manager.
-/

theorem combineMax_none_right (a : Option Int) : combineMax a none = a := by
  cases a <;> rfl

theorem combineMax_assoc (a b c : Option Int) :
    combineMax (combineMax a b) c = combineMax a (combineMax b c) := by
  cases a <;> cases b <;> cases c <;> simp [combineMax, max_assoc]

theorem listMaxInt_append (l1 l2 : List Int) :
    listMaxInt (l1 ++ l2) = combineMax (listMaxInt l1) (listMaxInt l2) := by
  induction l1 with
  | nil => simp [listMaxInt, combineMax]
  | cons x xs ih =>
    simp only [List.cons_append, listMaxInt, List.append_eq, ih, combineMax_assoc]

theorem notifyNewTasks_maxTaskID (m : AckMgr) (ts : List ReplicationTaskStub) :
    (notifyNewTasks m ts).maxTaskID =
      combineMax m.maxTaskID (listMaxInt (ts.map (·.taskID))) := by
  cases ts with
  | nil => simp [notifyNewTasks, listMaxInt, combineMax_none_right]
  | cons t rest => simp [notifyNewTasks]

theorem notifyNewTasks_maxVisibility (m : AckMgr) (ts : List ReplicationTaskStub) :
    (notifyNewTasks m ts).maxVisibilityTimestamp =
      combineMax m.maxVisibilityTimestamp (listMaxInt (ts.map (·.visibilityTimestamp))) := by
  cases ts with
  | nil => simp [notifyNewTasks, listMaxInt, combineMax_none_right]
  | cons t rest => simp [notifyNewTasks]

theorem foldl_notifyNewTasks_maxTaskID (calls : List (List ReplicationTaskStub))
    (m : AckMgr) :
    (calls.foldl notifyNewTasks m).maxTaskID =
      combineMax m.maxTaskID (listMaxInt ((calls.flatten).map (·.taskID))) := by
  induction calls generalizing m with
  | nil => simp [listMaxInt, combineMax_none_right]
  | cons c cs ih =>
    simp only [List.foldl_cons, List.flatten_cons, List.map_append]
    rw [ih, notifyNewTasks_maxTaskID, listMaxInt_append, combineMax_assoc]

theorem foldl_notifyNewTasks_maxVisibility (calls : List (List ReplicationTaskStub))
    (m : AckMgr) :
    (calls.foldl notifyNewTasks m).maxVisibilityTimestamp =
      combineMax m.maxVisibilityTimestamp
        (listMaxInt ((calls.flatten).map (·.visibilityTimestamp))) := by
  induction calls generalizing m with
  | nil => simp [listMaxInt, combineMax_none_right]
  | cons c cs ih =>
    simp only [List.foldl_cons, List.flatten_cons, List.map_append]
    rw [ih, notifyNewTasks_maxVisibility, listMaxInt_append, combineMax_assoc]

/-- C4: over any sequence of NotifyNewTasks calls the stored max_task_id is
non-decreasing, from the uninitialised manager it equals the maximum over
all task ids ever notified, and a first non-empty call adopts the maximum
id of its task list. -/
theorem claim_C4_notify_new_tasks (m : AckMgr) (ts : List ReplicationTaskStub)
    (calls : List (List ReplicationTaskStub)) :
    (∀ v, m.maxTaskID = some v →
      ∃ w, (notifyNewTasks m ts).maxTaskID = some w ∧ v ≤ w) ∧
    (calls.foldl notifyNewTasks ackMgrInit).maxTaskID =
      listMaxInt ((calls.flatten).map (·.taskID)) ∧
    (ts ≠ [] →
      (notifyNewTasks ackMgrInit ts).maxTaskID = listMaxInt (ts.map (·.taskID))) := by
  refine ⟨?_, ?_, ?_⟩
  · intro v hv
    rw [notifyNewTasks_maxTaskID, hv]
    cases h : listMaxInt (ts.map (·.taskID)) with
    | none => exact ⟨v, rfl, le_refl v⟩
    | some w => exact ⟨max v w, rfl, le_max_left v w⟩
  · rw [foldl_notifyNewTasks_maxTaskID]
    rfl
  · intro _
    rw [notifyNewTasks_maxTaskID]
    rfl

/-- Witness for C4 at the concrete inputs of the repository's tests: an
initialised manager never decreases, and the first call adopts the maximum
of its list. -/
theorem claim_C4_witness :
    (∃ w, (notifyNewTasks ⟨some 123, none, 0⟩ [⟨100, 5⟩]).maxTaskID = some w ∧
      (123 : Int) ≤ w) ∧
    (notifyNewTasks ackMgrInit [⟨456, 1⟩, ⟨123, 2⟩]).maxTaskID =
      listMaxInt [456, 123] := by
  refine ⟨(claim_C4_notify_new_tasks ⟨some 123, none, 0⟩ [⟨100, 5⟩] []).1 123 rfl, ?_⟩
  exact (claim_C4_notify_new_tasks ackMgrInit [⟨456, 1⟩, ⟨123, 2⟩] []).2.2 (by decide)

/-- C5: from the uninitialised manager, GetMaxTaskInfo returns the
componentwise maxima of task id and visibility timestamp across all
notifications, taken independently. -/
theorem claim_C5_get_max_task_info (calls : List (List ReplicationTaskStub)) (a b : Int)
    (ha : listMaxInt ((calls.flatten).map (·.taskID)) = some a)
    (hb : listMaxInt ((calls.flatten).map (·.visibilityTimestamp)) = some b) :
    getMaxTaskInfo (calls.foldl notifyNewTasks ackMgrInit) = (a, b) := by
  unfold getMaxTaskInfo
  rw [foldl_notifyNewTasks_maxTaskID, foldl_notifyNewTasks_maxVisibility]
  have h1 : combineMax ackMgrInit.maxTaskID (listMaxInt ((calls.flatten).map (·.taskID))) =
      some a := by rw [ha]; rfl
  have h2 : combineMax ackMgrInit.maxVisibilityTimestamp
      (listMaxInt ((calls.flatten).map (·.visibilityTimestamp))) = some b := by rw [hb]; rfl
  rw [h1, h2]
  rfl

/-- Witness for C5 at the inputs of Test_GetMaxTaskInfo: the maximum id is
on one task and the maximum visibility timestamp on another. -/
theorem claim_C5_witness :
    getMaxTaskInfo ([[⟨1, 100⟩, ⟨6, 101⟩, ⟨3, 3700⟩]].foldl notifyNewTasks ackMgrInit) =
      (6, 3700) :=
  claim_C5_get_max_task_info [[⟨1, 100⟩, ⟨6, 101⟩, ⟨3, 3700⟩]] 6 3700
    (by decide) (by decide)

/-- C6 counterexample: with a fresh (future) sanity check time but no cached
max task id, taskIDsRange leaves the sanity check time unchanged, whereas
the claim requires every call without a known max to refresh it to now plus
the refresh interval. The in-repo test
TestTaskIDRange_Initialized_NoHighestReplicationTaskID pins this behavior. -/
theorem claim_C6_counterexample :
    (taskIDsRange ⟨none, none, 100⟩ 10 7 50 5).2.2.sanityCheckTime = 100 ∧
    (taskIDsRange ⟨none, none, 100⟩ 10 7 50 5).2.2.sanityCheckTime ≠ 10 + 7 := by
  decide

/-- C6 as amended: min is always the inclusive min ack; when the sanity
check time is fresh and the cached max is known, max is the cached max
clamped by the watermark minus one and the sanity check time is unchanged;
when it is fresh but no max is cached, max is the watermark minus one and
the sanity check time is still unchanged; when it is stale (zero or before
now), max is the watermark minus one and the sanity check time is refreshed;
in every case the chosen max is persisted into the cache. -/
theorem claim_C6_task_ids_range (m : AckMgr)
    (now refreshInterval watermark lastReadTaskID : Int) :
    (taskIDsRange m now refreshInterval watermark lastReadTaskID).1 = lastReadTaskID ∧
    (∀ c, m.sanityCheckTime ≠ 0 → ¬m.sanityCheckTime < now → m.maxTaskID = some c →
      (taskIDsRange m now refreshInterval watermark lastReadTaskID).2.1 =
        min c (watermark - 1) ∧
      (taskIDsRange m now refreshInterval watermark lastReadTaskID).2.2.sanityCheckTime =
        m.sanityCheckTime) ∧
    (m.sanityCheckTime ≠ 0 → ¬m.sanityCheckTime < now → m.maxTaskID = none →
      (taskIDsRange m now refreshInterval watermark lastReadTaskID).2.1 = watermark - 1 ∧
      (taskIDsRange m now refreshInterval watermark lastReadTaskID).2.2.sanityCheckTime =
        m.sanityCheckTime) ∧
    (m.sanityCheckTime = 0 ∨ m.sanityCheckTime < now →
      (taskIDsRange m now refreshInterval watermark lastReadTaskID).2.1 = watermark - 1 ∧
      (taskIDsRange m now refreshInterval watermark lastReadTaskID).2.2.sanityCheckTime =
        now + refreshInterval) ∧
    (taskIDsRange m now refreshInterval watermark lastReadTaskID).2.2.maxTaskID =
      some (taskIDsRange m now refreshInterval watermark lastReadTaskID).2.1 := by
  refine ⟨?_, ?_, ?_, ?_, ?_⟩
  · by_cases hstale : m.sanityCheckTime = 0 ∨ m.sanityCheckTime < now <;>
      simp [taskIDsRange, hstale]
  · intro c h0 hlt hc
    have hfresh : ¬(m.sanityCheckTime = 0 ∨ m.sanityCheckTime < now) := by
      simp [h0, hlt]
    constructor
    · simp only [taskIDsRange, if_neg hfresh, hc]
      by_cases hlt2 : c < watermark - 1
      · simp [hlt2, min_eq_left (le_of_lt hlt2)]
      · simp [hlt2, min_eq_right (le_of_not_lt hlt2)]
    · simp [taskIDsRange, if_neg hfresh]
  · intro h0 hlt hc
    have hfresh : ¬(m.sanityCheckTime = 0 ∨ m.sanityCheckTime < now) := by
      simp [h0, hlt]
    exact ⟨by simp [taskIDsRange, if_neg hfresh, hc], by simp [taskIDsRange, if_neg hfresh]⟩
  · intro hstale
    exact ⟨by simp [taskIDsRange, if_pos hstale], by simp [taskIDsRange, if_pos hstale]⟩
  · by_cases hstale : m.sanityCheckTime = 0 ∨ m.sanityCheckTime < now <;>
      simp [taskIDsRange, hstale]

/-- Witness for C6 as amended, at a fresh sanity check time with a cached
max below the watermark. -/
theorem claim_C6_witness :
    (taskIDsRange ⟨some 30, none, 100⟩ 10 7 40 3).1 = 3 ∧
    (taskIDsRange ⟨some 30, none, 100⟩ 10 7 40 3).2.1 = min 30 (40 - 1) ∧
    (taskIDsRange ⟨some 30, none, 100⟩ 10 7 40 3).2.2.sanityCheckTime = 100 := by
  have h := claim_C6_task_ids_range ⟨some 30, none, 100⟩ 10 7 40 3
  exact ⟨h.1, (h.2.1 30 (by decide) (by decide) rfl).1,
    (h.2.1 30 (by decide) (by decide) rfl).2⟩

/-- C10: a range for which persistence returns zero replication tasks yields
an empty task list, no error, and a cursor equal to the requested max, so
the caller's ack cursor advances over the whole empty range. -/
theorem claim_C10_empty_range (replicated : String → Bool)
    (hydrate : QueueTask → HydrationOutcome) (maxTaskID : Int) :
    getTasks replicated hydrate [] maxTaskID = ⟨[], maxTaskID, false⟩ := rfl

theorem getTasksLoop_cons (replicated : String → Bool)
    (hydrate : QueueTask → HydrationOutcome) (t : QueueTask) (l : List QueueTask)
    (acc : List OutTask) (cursor : Int) :
    getTasksLoop replicated hydrate (t :: l) acc cursor =
      if replicated t.namespaceID then
        match hydrate t with
        | .hydrated p => getTasksLoop replicated hydrate l (acc ++ [⟨t.taskID, p⟩]) t.taskID
        | .dropped => getTasksLoop replicated hydrate l acc t.taskID
        | .failure =>
          match acc.getLast? with
          | none => ⟨[], 0, true⟩
          | some lastOut => ⟨acc, lastOut.sourceTaskID, false⟩
      else getTasksLoop replicated hydrate l acc t.taskID := rfl

theorem getTasksLoop_append_clean (replicated : String → Bool)
    (hydrate : QueueTask → HydrationOutcome) (pre : List QueueTask) :
    ∀ (l : List QueueTask) (acc : List OutTask) (cursor : Int),
    (∀ u ∈ pre, replicated u.namespaceID = true → hydrate u ≠ .failure) →
    getTasksLoop replicated hydrate (pre ++ l) acc cursor =
      getTasksLoop replicated hydrate l (acc ++ hydratedOuts replicated hydrate pre)
        (lastTaskIdOf cursor pre) := by
  induction pre with
  | nil => intro l acc cursor _; simp [hydratedOuts, lastTaskIdOf]
  | cons t rest ih =>
    intro l acc cursor hclean
    have hcleanRest : ∀ u ∈ rest, replicated u.namespaceID = true → hydrate u ≠ .failure :=
      fun u hu => hclean u (List.mem_cons_of_mem t hu)
    rw [List.cons_append, getTasksLoop_cons]
    by_cases hr : replicated t.namespaceID
    · rw [if_pos hr]
      cases hh : hydrate t with
      | hydrated p =>
        show getTasksLoop replicated hydrate (rest ++ l)
          (acc ++ [(⟨t.taskID, p⟩ : OutTask)]) t.taskID = _
        rw [ih l (acc ++ [(⟨t.taskID, p⟩ : OutTask)]) t.taskID hcleanRest]
        simp [hydratedOuts, lastTaskIdOf, hr, hh]
      | dropped =>
        show getTasksLoop replicated hydrate (rest ++ l) acc t.taskID = _
        rw [ih l acc t.taskID hcleanRest]
        simp [hydratedOuts, lastTaskIdOf, hr, hh]
      | failure => exact absurd hh (hclean t (List.mem_cons_self t rest) hr)
    · rw [if_neg hr]
      rw [ih l acc t.taskID hcleanRest]
      simp [hydratedOuts, lastTaskIdOf, hr]

/-- C7: a persistence failure hydrating the first task of a page propagates
the error with an empty result and cursor 0; a persistence failure on a
later task, after a non-empty hydrated run, returns that run without error,
with the cursor at the last hydrated task's id rather than the requested
max. -/
theorem claim_C7_get_tasks_error_policy (replicated : String → Bool)
    (hydrate : QueueTask → HydrationOutcome) :
    (∀ (t : QueueTask) (rest : List QueueTask) (maxTaskID : Int),
      replicated t.namespaceID = true → hydrate t = .failure →
      getTasks replicated hydrate (t :: rest) maxTaskID = ⟨[], 0, true⟩) ∧
    (∀ (pre : List QueueTask) (t : QueueTask) (rest : List QueueTask)
        (maxTaskID : Int) (lastOut : OutTask),
      (∀ u ∈ pre, replicated u.namespaceID = true → hydrate u ≠ .failure) →
      replicated t.namespaceID = true → hydrate t = .failure →
      (hydratedOuts replicated hydrate pre).getLast? = some lastOut →
      getTasks replicated hydrate (pre ++ t :: rest) maxTaskID =
        ⟨hydratedOuts replicated hydrate pre, lastOut.sourceTaskID, false⟩) := by
  constructor
  · intro t rest maxTaskID hr hh
    simp [getTasks, getTasksLoop, hr, hh]
  · intro pre t rest maxTaskID lastOut hclean hr hh hlast
    unfold getTasks
    rw [getTasksLoop_append_clean replicated hydrate pre (t :: rest) [] maxTaskID hclean]
    simp only [List.nil_append, getTasksLoop, hr, if_true, hh, hlast]

/-- Concrete hydration used by the C7 witness: task 2 hits a persistence
failure, every other task hydrates to its own id. -/
def hydrateExample (t : QueueTask) : HydrationOutcome :=
  if t.taskID = 2 then .failure else .hydrated t.taskID

/-- Witness for C7: a two-task page whose second task fails returns the
one-task hydrated run with cursor 1; a page whose first task fails returns
the error with cursor 0. -/
theorem claim_C7_witness :
    getTasks (fun _ => true) hydrateExample ([⟨1, "ns"⟩] ++ [⟨2, "ns"⟩]) 99 =
      ⟨hydratedOuts (fun _ => true) hydrateExample [⟨1, "ns"⟩],
        (⟨1, 1⟩ : OutTask).sourceTaskID, false⟩ ∧
    getTasks (fun _ => true) hydrateExample [⟨2, "ns"⟩] 99 = ⟨[], 0, true⟩ := by
  constructor
  · exact (claim_C7_get_tasks_error_policy (fun _ => true) hydrateExample).2
      [⟨1, "ns"⟩] ⟨2, "ns"⟩ [] 99 ⟨1, 1⟩ (by decide) rfl (by decide) (by decide)
  · exact (claim_C7_get_tasks_error_policy (fun _ => true) hydrateExample).1
      ⟨2, "ns"⟩ [] 99 rfl (by decide)

/-- C8: hydrating a SyncActivity task emits nothing, without error, when the
workflow is missing, no longer running, or the activity no longer exists;
otherwise it produces the replication payload carrying the activity's
version, times, attempt, last failure, last worker identity and the current
version history. -/
theorem claim_C8_generate_sync_activity (task : SyncActivityTask)
    (ws : WorkflowSnapshot) (ai : ActivityInfo) :
    generateSyncActivityTask none task = none ∧
    (ws.isRunning = false → generateSyncActivityTask (some ws) task = none) ∧
    (ws.isRunning = true → getActivityInfo ws task.scheduledEventID = none →
      generateSyncActivityTask (some ws) task = none) ∧
    (ws.isRunning = true → getActivityInfo ws task.scheduledEventID = some ai →
      generateSyncActivityTask (some ws) task = some
        { sourceTaskId := task.taskID,
          attributes :=
            { namespaceId := task.namespaceID,
              workflowId := task.workflowID,
              runId := task.runID,
              version := ai.version,
              scheduledEventId := ai.scheduledEventId,
              scheduledTime := ai.scheduledTime,
              startedEventId := ai.startedEventId,
              startedTime := ai.startedTime,
              lastHeartbeatTime := ai.lastHeartbeatUpdateTime,
              details := ai.lastHeartbeatDetails,
              attempt := ai.attempt,
              lastFailure := ai.retryLastFailure,
              lastWorkerIdentity := ai.retryLastWorkerIdentity,
              versionHistory := ws.currentVersionHistory },
          visibilityTime := task.visibilityTimestamp }) := by
  refine ⟨rfl, ?_, ?_, ?_⟩
  · intro h
    simp [generateSyncActivityTask, h]
  · intro h1 h2
    simp [generateSyncActivityTask, h1, h2]
  · intro h1 h2
    simp [generateSyncActivityTask, h1, h2]

/-- Workflow snapshot used by the C8 witness: a running execution with one
retrying activity at scheduled event id 144. -/
def wsExample : WorkflowSnapshot :=
  { isRunning := true,
    activities := [(144, ⟨333, 144, some 1000, 0, none, none, "progress", 16384,
      "some random reason", "some random worker identity"⟩)],
    currentVersionHistory := ⟨[], [⟨144, 333⟩]⟩ }

/-- SyncActivity task used by the C8 witness. -/
def syncTaskExample : SyncActivityTask :=
  ⟨"nsid", "wfid", "runid", 555, 1444, 2333, 144⟩

/-- Witness for C8: the retrying activity is hydrated into the full payload;
a completed workflow and a missing activity produce nothing. -/
theorem claim_C8_witness :
    generateSyncActivityTask (some wsExample) syncTaskExample = some
      { sourceTaskId := 1444,
        attributes :=
          { namespaceId := "nsid",
            workflowId := "wfid",
            runId := "runid",
            version := 333,
            scheduledEventId := 144,
            scheduledTime := some 1000,
            startedEventId := 0,
            startedTime := none,
            lastHeartbeatTime := none,
            details := "progress",
            attempt := 16384,
            lastFailure := "some random reason",
            lastWorkerIdentity := "some random worker identity",
            versionHistory := ⟨[], [⟨144, 333⟩]⟩ },
        visibilityTime := 555 } ∧
    generateSyncActivityTask (some { wsExample with isRunning := false }) syncTaskExample =
      none := by
  constructor
  · exact (claim_C8_generate_sync_activity syncTaskExample wsExample
      ⟨333, 144, some 1000, 0, none, none, "progress", 16384,
        "some random reason", "some random worker identity"⟩).2.2.2 rfl (by decide)
  · exact (claim_C8_generate_sync_activity syncTaskExample
      { wsExample with isRunning := false }
      ⟨333, 144, some 1000, 0, none, none, "progress", 16384,
        "some random reason", "some random worker identity"⟩).2.1 rfl

/-- C9: for each TLS material, specifying both inline data and a file fails
with the corresponding cannot-specify-both error (earlier-checked materials
assumed consistent), and inline data whose first corrupt character is at
position p fails with the decoder's position-bearing error (earlier-decoded
materials assumed clean). -/
theorem claim_C9_cassandra_tls (pemOk : String → Bool)
    (keyPairOk : String → String → Bool) (t : TLSConfig) (p : Nat)
    (henabled : t.enabled = true) :
    (t.certData ≠ "" → t.certFile ≠ "" →
      newCassandraCluster pemOk keyPairOk (some t) = some (.cannotSpecifyBoth "cert")) ∧
    (¬(t.certData ≠ "" ∧ t.certFile ≠ "") → t.keyData ≠ "" → t.keyFile ≠ "" →
      newCassandraCluster pemOk keyPairOk (some t) = some (.cannotSpecifyBoth "key")) ∧
    (¬(t.certData ≠ "" ∧ t.certFile ≠ "") → ¬(t.keyData ≠ "" ∧ t.keyFile ≠ "") →
      t.caData ≠ "" → t.caFile ≠ "" →
      newCassandraCluster pemOk keyPairOk (some t) = some (.cannotSpecifyBoth "ca")) ∧
    (¬(t.certData ≠ "" ∧ t.certFile ≠ "") → ¬(t.keyData ≠ "" ∧ t.keyFile ≠ "") →
      ¬(t.caData ≠ "" ∧ t.caFile ≠ "") → base64FirstCorrupt t.caData = some p →
      newCassandraCluster pemOk keyPairOk (some t) = some (.base64CorruptInput p)) ∧
    (¬(t.certData ≠ "" ∧ t.certFile ≠ "") → ¬(t.keyData ≠ "" ∧ t.keyFile ≠ "") →
      ¬(t.caData ≠ "" ∧ t.caFile ≠ "") → base64FirstCorrupt t.caData = none →
      (t.caData = "" ∨ pemOk t.caData = true) → base64FirstCorrupt t.certData = some p →
      newCassandraCluster pemOk keyPairOk (some t) = some (.base64CorruptInput p)) ∧
    (¬(t.certData ≠ "" ∧ t.certFile ≠ "") → ¬(t.keyData ≠ "" ∧ t.keyFile ≠ "") →
      ¬(t.caData ≠ "" ∧ t.caFile ≠ "") → base64FirstCorrupt t.caData = none →
      (t.caData = "" ∨ pemOk t.caData = true) → base64FirstCorrupt t.certData = none →
      base64FirstCorrupt t.keyData = some p →
      newCassandraCluster pemOk keyPairOk (some t) = some (.base64CorruptInput p)) := by
  refine ⟨?_, ?_, ?_, ?_, ?_, ?_⟩
  · intro h1 h2
    simp [newCassandraCluster, henabled, h1, h2]
  · intro hno1 h1 h2
    simp [newCassandraCluster, henabled, hno1, h1, h2]
  · intro hno1 hno2 h1 h2
    simp [newCassandraCluster, henabled, hno1, hno2, h1, h2]
  · intro hno1 hno2 hno3 hca
    simp [newCassandraCluster, henabled, hno1, hno2, hno3, hca]
  · intro hno1 hno2 hno3 hca hparse hcert
    have hp : ¬t.caData = "" → pemOk t.caData = true := fun hne => hparse.resolve_left hne
    simp [newCassandraCluster, henabled, hno1, hno2, hno3, hca, hcert]
    exact hp
  · intro hno1 hno2 hno3 hca hparse hcert hkey
    have hp : ¬t.caData = "" → pemOk t.caData = true := fun hne => hparse.resolve_left hne
    simp [newCassandraCluster, henabled, hno1, hno2, hno3, hca, hcert, hkey]
    exact hp

/-- Witness for C9 at test-shaped configs: corrupt CA data fails at the
first illegal character, and doubled CA material fails with the
cannot-specify-both error. -/
theorem claim_C9_witness :
    newCassandraCluster (fun _ => true) (fun _ _ => true)
      (some ⟨true, "bad base64", "", "", "", "", ""⟩) =
      some (.base64CorruptInput 3) ∧
    newCassandraCluster (fun _ => true) (fun _ _ => true)
      (some ⟨true, "QUJD", "/a/b/c", "", "", "", ""⟩) =
      some (.cannotSpecifyBoth "ca") := by
  constructor
  · exact (claim_C9_cassandra_tls (fun _ => true) (fun _ _ => true)
      ⟨true, "bad base64", "", "", "", "", ""⟩ 3 rfl).2.2.2.1
      (by decide) (by decide) (by decide) (by decide)
  · exact (claim_C9_cassandra_tls (fun _ => true) (fun _ _ => true)
      ⟨true, "QUJD", "/a/b/c", "", "", "", ""⟩ 0 rfl).2.2.1
      (by decide) (by decide) (by decide) (by decide)


/-!
Helper definitions and lemmas for the workflow task state machine claims.
-/

/-- True exactly on WorkflowTaskScheduled events. -/
def isWTScheduledEvent (ev : HistoryEvent) : Bool :=
  match ev.data with
  | .wtScheduled _ _ _ => true
  | _ => false

/-- Number of durable WorkflowTaskScheduled events in a list. -/
def scheduledEventCount (l : List HistoryEvent) : Nat :=
  (l.filter isWTScheduledEvent).length

/-- The attempt count after the buffered-events and failover adjustments of
AddWorkflowTaskScheduledEventAsHeartbeat, as the claim describes them:
buffered events reset the attempt to 1, and so does a failover observed
during a transient task. -/
def adjustedAttempt (st : MutableState) : Int :=
  if hasBufferedEvents st = true then 1
  else if isTransientWorkflowTask st = true ∧ st.currentVersion ≠ st.lastWriteVersion then 1
  else st.wtAttempt

theorem scheduledEventCount_append (l1 l2 : List HistoryEvent) :
    scheduledEventCount (l1 ++ l2) = scheduledEventCount l1 + scheduledEventCount l2 := by
  simp [scheduledEventCount, List.filter_append]

theorem scheduledEventCount_emitBuffered (buf : List (Int × Nat)) :
    ∀ n : Int, scheduledEventCount (emitBuffered n buf) = 0 := by
  induction buf with
  | nil => intro n; rfl
  | cons b rest ih =>
    intro n
    obtain ⟨t, p⟩ := b
    have hfalse : isWTScheduledEvent ⟨n, t, .bufferedOther p⟩ = false := rfl
    simp only [emitBuffered, scheduledEventCount, List.filter_cons, hfalse,
      Bool.false_eq_true, if_false]
    exact ih (n + 1)

theorem heartbeatBufferAdjust_buffered (st : MutableState)
    (hbuf : hasBufferedEvents st = true) :
    heartbeatBufferAdjust st =
      ({ st with wtAttempt := 1, hb := st.hb.flushBufferToCurrentBatch }, true) := by
  simp [heartbeatBufferAdjust, hbuf]

theorem heartbeatBufferAdjust_clean (st : MutableState)
    (hbuf : hasBufferedEvents st = false) :
    heartbeatBufferAdjust st = (st, !isTransientWorkflowTask st) := by
  simp [heartbeatBufferAdjust, hbuf]

theorem heartbeatFailoverAdjust_forced (st : MutableState) :
    heartbeatFailoverAdjust (st, true) = (st, true) := rfl

theorem heartbeatFailoverAdjust_failover (st : MutableState)
    (h : st.currentVersion ≠ st.lastWriteVersion) :
    heartbeatFailoverAdjust (st, false) = ({ st with wtAttempt := 1 }, true) := by
  simp [heartbeatFailoverAdjust, h]

theorem heartbeatFailoverAdjust_same (st : MutableState)
    (h : st.currentVersion = st.lastWriteVersion) :
    heartbeatFailoverAdjust (st, false) = (st, false) := by
  simp [heartbeatFailoverAdjust, h]

theorem heartbeatFinish_emit_events (st2 : MutableState) (ots : Int) :
    (heartbeatFinish st2 true ots).2.hb.events =
      st2.hb.events ++ [⟨st2.hb.nextEventId, st2.now,
        .wtScheduled st2.taskQueue
          (getStartToCloseTimeout st2 st2.defaultWorkflowTaskTimeout st2.wtAttempt)
          st2.wtAttempt⟩] := by
  simp [heartbeatFinish, replicateWorkflowTaskScheduledEvent, updateWorkflowTask,
    HistoryBuilder.add, apply_ite]

theorem heartbeatFinish_emit_buffered (st2 : MutableState) (ots : Int) :
    (heartbeatFinish st2 true ots).2.hb.buffered = st2.hb.buffered := by
  simp [heartbeatFinish, replicateWorkflowTaskScheduledEvent, updateWorkflowTask,
    HistoryBuilder.add, apply_ite]

theorem heartbeatFinish_attempt (st2 : MutableState) (b : Bool) (ots : Int) :
    (heartbeatFinish st2 b ots).2.wtAttempt = st2.wtAttempt := by
  cases b <;>
    simp [heartbeatFinish, replicateWorkflowTaskScheduledEvent, updateWorkflowTask,
      HistoryBuilder.add, apply_ite]

theorem heartbeatFinish_skip_events (st2 : MutableState) (ots : Int) :
    (heartbeatFinish st2 false ots).2.hb.events = st2.hb.events := by
  simp [heartbeatFinish, replicateWorkflowTaskScheduledEvent, updateWorkflowTask,
    apply_ite]

theorem heartbeatFinish_skip_scheduledEventId (st2 : MutableState) (ots : Int) :
    (heartbeatFinish st2 false ots).1.scheduledEventId = st2.getNextEventID := by
  simp [heartbeatFinish, replicateWorkflowTaskScheduledEvent]

theorem scheduledEventCount_singleton_scheduled (n t : Int) (tq : TaskQueue)
    (timeout att : Int) :
    scheduledEventCount [⟨n, t, .wtScheduled tq timeout att⟩] = 1 := rfl

/-- C1: a schedule-as-heartbeat call with no pending workflow task emits the
durable WorkflowTaskScheduledEvent exactly when the task is not transient
after the buffered-events and failover adjustments; buffered events force a
flush, an attempt reset to 1 and emission; and when no event is emitted the
scheduled event id is reserved as the next event id without writing any
event. -/
theorem claim_C1_schedule_heartbeat (st : MutableState) (byp : Bool) (ots : Int)
    (hpend : st.wtScheduledEventId = EmptyEventID) :
    ∃ wt st2, addWorkflowTaskScheduledEventAsHeartbeat st byp ots = .ok (wt, st2) ∧
      (adjustedAttempt st ≤ workflowTaskRetryBackoffMinAttempts ↔
        scheduledEventCount st2.hb.events = scheduledEventCount st.hb.events + 1) ∧
      (hasBufferedEvents st = true →
        st2.wtAttempt = 1 ∧ st2.hb.buffered = [] ∧
        scheduledEventCount st2.hb.events = scheduledEventCount st.hb.events + 1) ∧
      (workflowTaskRetryBackoffMinAttempts < adjustedAttempt st →
        wt.scheduledEventId = st.getNextEventID ∧ st2.hb.events = st.hb.events) := by
  have hnp : hasPendingWorkflowTask st = false := by
    simp [hasPendingWorkflowTask, hpend]
  by_cases hbuf : hasBufferedEvents st = true
  · -- buffered events: flush, reset attempt to 1, emit
    set stB : MutableState :=
      { st with wtAttempt := 1, hb := st.hb.flushBufferToCurrentBatch } with hstB
    have hadj : heartbeatFailoverAdjust (heartbeatBufferAdjust st) = (stB, true) := by
      rw [heartbeatBufferAdjust_buffered st hbuf, heartbeatFailoverAdjust_forced]
    have hadjA : adjustedAttempt st = 1 := by simp [adjustedAttempt, hbuf]
    have hev : stB.hb.events =
        st.hb.events ++ emitBuffered st.hb.nextEventId st.hb.buffered := by
      simp [hstB, HistoryBuilder.flushBufferToCurrentBatch]
    have hcount : scheduledEventCount (heartbeatFinish stB true ots).2.hb.events =
        scheduledEventCount st.hb.events + 1 := by
      rw [heartbeatFinish_emit_events, scheduledEventCount_append, hev,
        scheduledEventCount_append, scheduledEventCount_emitBuffered,
        scheduledEventCount_singleton_scheduled]
    refine ⟨(heartbeatFinish stB true ots).1, (heartbeatFinish stB true ots).2,
      ?_, ?_, ?_, ?_⟩
    · simp [addWorkflowTaskScheduledEventAsHeartbeat, hnp, hadj]
    · exact iff_of_true
        (by rw [hadjA]; norm_num [workflowTaskRetryBackoffMinAttempts]) hcount
    · intro _
      refine ⟨?_, ?_, hcount⟩
      · rw [heartbeatFinish_attempt]
      · rw [heartbeatFinish_emit_buffered, hstB]
        rfl
    · intro h
      rw [hadjA] at h
      norm_num [workflowTaskRetryBackoffMinAttempts] at h
  · have hbf : hasBufferedEvents st = false := by
      revert hbuf; cases hasBufferedEvents st <;> simp
    by_cases htr : isTransientWorkflowTask st = true
    · have hattempt : workflowTaskRetryBackoffMinAttempts < st.wtAttempt := by
        simpa [isTransientWorkflowTask] using htr
      by_cases hver : st.currentVersion = st.lastWriteVersion
      · -- transient, no buffered events, no failover: reserve without writing
        have hadj : heartbeatFailoverAdjust (heartbeatBufferAdjust st) = (st, false) := by
          rw [heartbeatBufferAdjust_clean st hbf, htr]
          exact heartbeatFailoverAdjust_same st hver
        have hadjA : adjustedAttempt st = st.wtAttempt := by
          simp [adjustedAttempt, hbf, hver]
        refine ⟨(heartbeatFinish st false ots).1, (heartbeatFinish st false ots).2,
          ?_, ?_, ?_, ?_⟩
        · simp [addWorkflowTaskScheduledEventAsHeartbeat, hnp, hadj]
        · rw [hadjA, heartbeatFinish_skip_events]
          constructor
          · intro h; omega
          · intro h; omega
        · intro h; rw [hbf] at h; exact absurd h (by simp)
        · intro _
          exact ⟨heartbeatFinish_skip_scheduledEventId st ots,
            heartbeatFinish_skip_events st ots⟩
      · -- transient with failover: reset attempt to 1, emit
        set stF : MutableState := { st with wtAttempt := 1 } with hstF
        have hadj : heartbeatFailoverAdjust (heartbeatBufferAdjust st) = (stF, true) := by
          rw [heartbeatBufferAdjust_clean st hbf, htr]
          exact heartbeatFailoverAdjust_failover st hver
        have hadjA : adjustedAttempt st = 1 := by
          simp [adjustedAttempt, hbf, htr, hver]
        have hev : stF.hb.events = st.hb.events := by simp [hstF]
        have hcount : scheduledEventCount (heartbeatFinish stF true ots).2.hb.events =
            scheduledEventCount st.hb.events + 1 := by
          rw [heartbeatFinish_emit_events, scheduledEventCount_append, hev,
            scheduledEventCount_singleton_scheduled]
        refine ⟨(heartbeatFinish stF true ots).1, (heartbeatFinish stF true ots).2,
          ?_, ?_, ?_, ?_⟩
        · simp [addWorkflowTaskScheduledEventAsHeartbeat, hnp, hadj]
        · exact iff_of_true
            (by rw [hadjA]; norm_num [workflowTaskRetryBackoffMinAttempts]) hcount
        · intro h; rw [hbf] at h; exact absurd h (by simp)
        · intro h
          rw [hadjA] at h
          norm_num [workflowTaskRetryBackoffMinAttempts] at h
    · -- not transient: emit
      have htrf : isTransientWorkflowTask st = false := by
        revert htr; cases isTransientWorkflowTask st <;> simp
      have hattempt : ¬workflowTaskRetryBackoffMinAttempts < st.wtAttempt := by
        simpa [isTransientWorkflowTask] using htrf
      have hadj : heartbeatFailoverAdjust (heartbeatBufferAdjust st) = (st, true) := by
        rw [heartbeatBufferAdjust_clean st hbf, htrf]
        exact heartbeatFailoverAdjust_forced st
      have hadjA : adjustedAttempt st = st.wtAttempt := by
        simp [adjustedAttempt, hbf, htrf]
      have hcount : scheduledEventCount (heartbeatFinish st true ots).2.hb.events =
          scheduledEventCount st.hb.events + 1 := by
        rw [heartbeatFinish_emit_events, scheduledEventCount_append,
          scheduledEventCount_singleton_scheduled]
      refine ⟨(heartbeatFinish st true ots).1, (heartbeatFinish st true ots).2,
        ?_, ?_, ?_, ?_⟩
      · simp [addWorkflowTaskScheduledEventAsHeartbeat, hnp, hadj]
      · exact iff_of_true (by rw [hadjA]; omega) hcount
      · intro h; rw [hbf] at h; exact absurd h (by simp)
      · intro h; rw [hadjA] at h; exact absurd h hattempt

/-- Concrete mutable state used by the workflow task state machine
witnesses: a transient task (attempt 5) recorded at scheduled event id 5,
started event id 6, with recorded times 15 and 20. -/
def stExample : MutableState :=
  { wtVersion := 7, wtScheduledEventId := 5, wtStartedEventId := 6, wtRequestId := "req",
    wtTimeout := 10, wtAttempt := 5, wtStartedTime := 20, wtScheduledTime := 15,
    wtOriginalScheduledTime := 15, lastWorkflowTaskStartedEventId := 0,
    defaultWorkflowTaskTimeout := 10, normalTaskQueueName := "tq",
    stickyTaskQueueName := "", currentVersion := 7, lastWriteVersion := 7,
    workflowState := .running, wtRetryMaxInterval := 100, hb := ⟨7, [], []⟩, now := 30 }

/-- The witness state for C1: the transient example state with no pending
workflow task. -/
def stHbExample : MutableState :=
  { stExample with wtScheduledEventId := 0, wtStartedEventId := 0 }

/-- Witness for C1: from a transient state with no pending task, no buffered
events and no failover, the scheduled event id is reserved as the next event
id and no event is written. -/
theorem claim_C1_witness :
    ∃ wt st2, addWorkflowTaskScheduledEventAsHeartbeat stHbExample false 15 =
        .ok (wt, st2) ∧
      wt.scheduledEventId = stHbExample.getNextEventID ∧
      st2.hb.events = stHbExample.hb.events := by
  obtain ⟨wt, st2, heq, _, _, hres⟩ :=
    claim_C1_schedule_heartbeat stHbExample false 15 rfl
  obtain ⟨h1, h2⟩ := hres (by decide)
  exact ⟨wt, st2, heq, h1, h2⟩

/-- C2: completing a transient workflow task with matching scheduled and
started event ids deletes the workflow task and appends, in order,
WorkflowTaskScheduled and WorkflowTaskStarted carrying the recorded
in-memory scheduled and started times, then WorkflowTaskCompleted, with
strictly increasing event ids, and sets last_workflow_task_started_event_id
to the completed event's started event id. -/
theorem claim_C2_complete_transient (st : MutableState)
    (scheduledEventId startedEventId : Int) (identity binaryChecksum : String)
    (hsc : scheduledEventId = st.wtScheduledEventId)
    (hst : startedEventId = st.wtStartedEventId)
    (htr : isTransientWorkflowTask st = true) :
    ∃ ev st2, addWorkflowTaskCompletedEvent st scheduledEventId startedEventId identity
        binaryChecksum = .ok (ev, st2) ∧
      st2.wtScheduledEventId = EmptyEventID ∧
      st2.wtStartedEventId = EmptyEventID ∧
      st2.hb.events = st.hb.events ++
        [⟨st.hb.nextEventId, st.wtScheduledTime,
            .wtScheduled st.taskQueue st.wtTimeout st.wtAttempt⟩,
         ⟨st.hb.nextEventId + 1, st.wtStartedTime,
            .wtStarted st.hb.nextEventId st.wtRequestId identity⟩,
         ⟨st.hb.nextEventId + 2, st.now,
            .wtCompleted scheduledEventId (st.hb.nextEventId + 1) identity
              binaryChecksum⟩] ∧
      st.hb.nextEventId < st.hb.nextEventId + 1 ∧
      st.hb.nextEventId + 1 < st.hb.nextEventId + 2 ∧
      ev = ⟨st.hb.nextEventId + 2, st.now,
        .wtCompleted scheduledEventId (st.hb.nextEventId + 1) identity binaryChecksum⟩ ∧
      st2.lastWorkflowTaskStartedEventId = st.hb.nextEventId + 1 := by
  have hget : getWorkflowTaskInfo st scheduledEventId =
      some st.currentWorkflowTaskInfo := by
    simp [getWorkflowTaskInfo, hsc]
  have hmatch : ¬(st.currentWorkflowTaskInfo.startedEventId ≠ startedEventId) := by
    simp [MutableState.currentWorkflowTaskInfo, hst]
  refine ⟨⟨st.hb.nextEventId + 2, st.now,
      .wtCompleted scheduledEventId (st.hb.nextEventId + 1) identity binaryChecksum⟩,
    { deleteWorkflowTask st with
        hb := ⟨st.hb.nextEventId + 3,
          st.hb.events ++
            [⟨st.hb.nextEventId, st.wtScheduledTime,
                .wtScheduled st.taskQueue st.wtTimeout st.wtAttempt⟩,
             ⟨st.hb.nextEventId + 1, st.wtStartedTime,
                .wtStarted st.hb.nextEventId st.wtRequestId identity⟩,
             ⟨st.hb.nextEventId + 2, st.now,
                .wtCompleted scheduledEventId (st.hb.nextEventId + 1) identity
                  binaryChecksum⟩],
          st.hb.buffered⟩,
        lastWorkflowTaskStartedEventId := st.hb.nextEventId + 1 },
    ?_, rfl, rfl, rfl, by omega, by omega, rfl, rfl⟩
  simp only [addWorkflowTaskCompletedEvent, hget]
  rw [if_neg hmatch]
  simp [htr, completedTransientEvents, HistoryBuilder.add, deleteWorkflowTask,
    updateWorkflowTask, afterAddWorkflowTaskCompletedEvent, completedAttrStartedEventId,
    MutableState.currentWorkflowTaskInfo, MutableState.taskQueue, List.append_assoc]
  omega

/-- Witness for C2 at the concrete transient state: the three events are
appended with ids 7, 8, 9 and the recorded times 15 and 20. -/
theorem claim_C2_witness :
    ∃ ev st2, addWorkflowTaskCompletedEvent stExample 5 6 "worker" "chk" =
        .ok (ev, st2) ∧
      st2.wtScheduledEventId = EmptyEventID ∧
      st2.lastWorkflowTaskStartedEventId = 8 := by
  obtain ⟨ev, st2, heq, hdel, _, _, _, _, _, hlast⟩ :=
    claim_C2_complete_transient stExample 5 6 "worker" "chk" rfl rfl (by decide)
  exact ⟨ev, st2, heq, hdel, hlast⟩

/-- C3: after a workflow task failure transition stickiness is always
cleared; on a sticky queue FailWorkflowTask with increment does not
increment the attempt (it resets it to 1); on a non-sticky queue the attempt
becomes the previous attempt plus one and the scheduled and started event
ids are cleared; and AddWorkflowTaskFailedEvent with a reset-workflow or
failover-close-command cause leaves attempt 1 regardless of stickiness. -/
theorem claim_C3_fail_attempt (st : MutableState) (inc : Bool)
    (cause : WorkflowTaskFailedCause) (scheduledEventId startedEventId : Int) :
    isStickyTaskQueueEnabled (failWorkflowTask st inc) = false ∧
    (isStickyTaskQueueEnabled st = true →
      (failWorkflowTask st true).wtAttempt = 1 ∧
      (1 ≤ st.wtAttempt → (failWorkflowTask st true).wtAttempt ≠ st.wtAttempt + 1)) ∧
    (isStickyTaskQueueEnabled st = false →
      (failWorkflowTask st true).wtAttempt = st.wtAttempt + 1 ∧
      (failWorkflowTask st true).wtScheduledEventId = EmptyEventID ∧
      (failWorkflowTask st true).wtStartedEventId = EmptyEventID) ∧
    ((cause = .resetWorkflow ∨ cause = .failoverCloseCommand) →
      scheduledEventId = st.wtScheduledEventId →
      startedEventId = st.wtStartedEventId →
      ∃ ev st2, addWorkflowTaskFailedEvent st scheduledEventId startedEventId cause =
          .ok (ev, st2) ∧ st2.wtAttempt = 1) := by
  refine ⟨?_, ?_, ?_, ?_⟩
  · simp [failWorkflowTask, clearStickyness, updateWorkflowTask,
      isStickyTaskQueueEnabled, apply_ite]
  · intro hsticky
    have h1 : (failWorkflowTask st true).wtAttempt = 1 := by
      simp [failWorkflowTask, hsticky, clearStickyness, updateWorkflowTask]
    refine ⟨h1, ?_⟩
    intro hge
    rw [h1]
    omega
  · intro hnot
    refine ⟨?_, ?_, ?_⟩ <;>
      simp [failWorkflowTask, hnot, clearStickyness, updateWorkflowTask]
  · intro hcause hsc hst
    have hget : getWorkflowTaskInfo st scheduledEventId =
        some st.currentWorkflowTaskInfo := by
      simp [getWorkflowTaskInfo, hsc]
    have hmatch : ¬(st.currentWorkflowTaskInfo.startedEventId ≠ startedEventId) := by
      simp [MutableState.currentWorkflowTaskInfo, hst]
    refine ⟨(failedEventEmit st scheduledEventId startedEventId cause).1,
      { replicateWorkflowTaskFailedEvent
          (failedEventEmit st scheduledEventId startedEventId cause).2 with
        wtAttempt := 1 }, ?_, rfl⟩
    simp only [addWorkflowTaskFailedEvent, hget]
    rw [if_neg hmatch, if_pos hcause]

/-- The sticky-queue variant of the witness state. -/
def stStickyExample : MutableState :=
  { stExample with stickyTaskQueueName := "sticky" }

/-- Witness for C3 at concrete states: a sticky state keeps attempt 1 after
failure, a non-sticky state increments, and a reset-workflow failure leaves
attempt 1. -/
theorem claim_C3_witness :
    (failWorkflowTask stStickyExample true).wtAttempt = 1 ∧
    (failWorkflowTask stExample true).wtAttempt = stExample.wtAttempt + 1 ∧
    (∃ ev st2, addWorkflowTaskFailedEvent stExample 5 6 .resetWorkflow =
        .ok (ev, st2) ∧ st2.wtAttempt = 1) := by
  refine ⟨?_, ?_, ?_⟩
  · exact ((claim_C3_fail_attempt stStickyExample
      true .resetWorkflow 5 6).2.1 (by decide)).1
  · exact ((claim_C3_fail_attempt stExample true .resetWorkflow 5 6).2.2.1 (by decide)).1
  · exact (claim_C3_fail_attempt stExample true .resetWorkflow 5 6).2.2.2
      (Or.inl rfl) rfl rfl

end Temporal
